import Mathlib

/-!
# Verification of the bitmagnet importer session
  (`internal/importer/importer.go`)

Shallow embedding of the importer's ingestion session: the buffering
policy (`buffer`), the flush path (`flushLocked`), the batched persist
with supporting-record dedup and primary-record upsert (`persistItems`,
`createTorrentModel`), the lifecycle operations (`Import`, `Close`) and
the scheduler's timeout behaviour (`run`).

External collaborators (the gorm DAO and the processor publisher) are
modelled by an outcome oracle (`PersistOutcome`) saying which of the
three external calls of one `persistItems` invocation fails, together
with an explicit database state (`Db`) to which successful writes are
applied.  Go maps used as string sets (`importedSources`, `sourcesMap`)
are modelled as lists with insert-if-absent, so membership coincides
with the map-key test.  `time.Time` instants and `time.Duration` are
modelled as `Nat`.  Concurrency is not modelled: each exported operation
of the Go session runs under the session's single mutex, so the
sequential state-passing semantics below is the behaviour of the locked
regions.
-/

set_option autoImplicit false

/-- Opaque error value (Go `error`).  The importer never inspects the
errors it receives from collaborators, it only propagates and stores
them, so a string model suffices. -/
abbrev Err := String

/-- `ErrImportClosed = errors.New("import closed")`. -/
def ErrImportClosed : Err := "import closed"

/-- `importer.Info`: the opaque import-session identifier. -/
structure Info where
  id : String
deriving DecidableEq, Repr

/-- `importer.Item`: one input record.  Nullable fields
(`model.NullString`, `model.NullContentType`, `model.Null*`) are
modelled as `Option` of an opaque payload (`String`); the importer only
tests validity and copies the payload verbatim.  `model.Date`,
`model.Year` and `model.Episodes` are opaque pass-through values;
`PublishedAt` is an abstract instant. -/
structure Item where
  source : String
  infoHash : String
  name : String
  size : Nat
  privateFlag : Bool
  contentType : Option String
  contentSource : Option String
  contentID : Option String
  title : Option String
  releaseDate : String
  releaseYear : Nat
  episodes : String
  videoResolution : Option String
  videoSource : Option String
  videoCodec : Option String
  video3d : Option String
  videoModifier : Option String
  releaseGroup : Option String
  publishedAt : Nat
deriving DecidableEq, Repr

/-- `model.TorrentSource`: a supporting record; `persistItems` sets both
`Key` and `Name` to the item's `Source`. -/
structure TorrentSource where
  key : String
  name : String
deriving DecidableEq, Repr

/-- `model.TorrentsTorrentSource`: the provenance entry attached to a
persisted primary record. -/
structure TorrentsTorrentSource where
  source : String
  importId : Option String
  publishedAt : Nat
deriving DecidableEq, Repr

/-- `model.TorrentHint`: the denormalized enrichment substructure.  The
`model` package is not under `src/`; the fields here are exactly the
ones `createTorrentModel` assigns. -/
structure TorrentHint where
  contentType : String
  contentSource : Option String
  contentID : Option String
  title : Option String
  releaseYear : Nat
  episodes : String
  videoResolution : Option String
  videoSource : Option String
  videoCodec : Option String
  video3d : Option String
  videoModifier : Option String
  releaseGroup : Option String
deriving DecidableEq, Repr

/-- `model.FilesStatus`: the `model` package is not under `src/`; only
`model.FilesStatusNoInfo` is referenced by the importer, so one
constructor stands for that value and one for every other status. -/
inductive FilesStatus where
  | noInfo
  | other
deriving DecidableEq, Repr

/-- `model.Torrent` restricted to the fields `createTorrentModel`
assigns.  A zero-valued (unassigned) `Hint` is `none`. -/
structure Torrent where
  infoHash : String
  name : String
  size : Nat
  privateFlag : Bool
  filesStatus : FilesStatus
  hint : Option TorrentHint
  sources : List TorrentsTorrentSource
deriving DecidableEq, Repr

/-- `importer.ImportItemsError`: one batch failure, pairing the failed
batch's records with the originating error. -/
structure ImportItemsError where
  items : List Item
  err : Err
deriving DecidableEq, Repr

/-- `importer.ImportErrors`. -/
abbrev ImportErrors := List ImportItemsError

/-- `ImportErrors.IsNil`. -/
def ImportErrors.isNil (e : ImportErrors) : Bool :=
  e.length == 0

/-- `ImportErrors.OrNil`: `nil` when empty, the list itself otherwise.
Go's `error` interface is modelled by `Option ImportErrors` here. -/
def ImportErrors.orNil (e : ImportErrors) : Option ImportErrors :=
  if e.isNil then none else some e

/-- The mutable state of `importer.activeImport` that the sequential
(locked) operations read and write, together with the configuration it
embeds from `importer`.  `ctx`, `stop`, `wg` and the channel itself are
concurrency plumbing with no sequential content; the channel's closure
is subsumed by the `stopped` flag. -/
structure ActiveImport where
  bufferSize : Nat
  maxWaitTime : Nat
  stopped : Bool
  info : Info
  itemBuffer : List Item
  importedSources : List String
  importedHashes : List String
  errors : ImportErrors
deriving DecidableEq, Repr

/-- The durable store the DAO writes to: the set of supporting-record
keys present, and the primary records keyed by info hash. -/
structure Db where
  sourceKeys : List String
  torrents : List Torrent
deriving DecidableEq, Repr

/-- `dao.TorrentSource...Clauses(clause.OnConflict{DoNothing: true}).CreateInBatches`:
insert each supporting record whose key is not already present; key
conflicts are ignored. -/
def Db.createOrIgnoreSources (db : Db) (sources : List TorrentSource) : Db :=
  { db with
    sourceKeys :=
      sources.foldl
        (fun acc s => if acc.contains s.key then acc else acc ++ [s.key])
        db.sourceKeys }

/-- `dao.Torrent...Clauses(clause.OnConflict{UpdateAll: true}).CreateInBatches`:
upsert keyed by info hash, fully overwriting on conflict. -/
def Db.upsertTorrents (db : Db) (ts : List Torrent) : Db :=
  { db with
    torrents :=
      ts.foldl
        (fun acc t =>
          if acc.any (fun t0 => t0.infoHash == t.infoHash) then
            acc.map (fun t0 => if t0.infoHash == t.infoHash then t else t0)
          else
            acc ++ [t])
        db.torrents }

/-- The outcome of the (at most three) external calls of one
`persistItems` invocation: the error each call would return if issued.
`createSourcesErr` is consulted only when the supporting-record insert
is actually issued (non-empty `sources`). -/
structure PersistOutcome where
  createSourcesErr : Option Err
  createTorrentsErr : Option Err
  publishErr : Option Err
deriving DecidableEq, Repr

/-- `createTorrentModel(info, item)`: builds the primary record; the
hint substructure is assigned exactly when `item.ContentType.Valid`. -/
def createTorrentModel (info : Info) (item : Item) : Torrent :=
  let t : Torrent :=
    { infoHash := item.infoHash
      name := item.name
      size := item.size
      privateFlag := item.privateFlag
      filesStatus := FilesStatus.noInfo
      hint := none
      sources :=
        [{ source := item.source
           importId := some info.id
           publishedAt := item.publishedAt }] }
  match item.contentType with
  | some ct =>
    { t with
      hint := some
        { contentType := ct
          contentSource := item.contentSource
          contentID := item.contentID
          title := item.title
          releaseYear := item.releaseYear
          episodes := item.episodes
          videoResolution := item.videoResolution
          videoSource := item.videoSource
          videoCodec := item.videoCodec
          video3d := item.video3d
          videoModifier := item.videoModifier
          releaseGroup := item.releaseGroup } }
  | none => t

/-- The supporting-record collection loop of `persistItems`: an item's
source joins `sources` only when it is neither already durable
(`importedSources`) nor already collected in this batch (`sourcesMap`,
here `seen`). -/
def collectSources (imported : List String) (seen : List String) :
    List Item → List TorrentSource
  | [] => []
  | item :: rest =>
    if imported.contains item.source || seen.contains item.source then
      collectSources imported seen rest
    else
      { key := item.source, name := item.source }
        :: collectSources imported (item.source :: seen) rest

/-- `for _, s := range sources { i.importedSources[s.Key] = struct{}{} }`:
map-insert of every issued key into the durable set. -/
def markDurable (imported : List String) (sources : List TorrentSource) :
    List String :=
  sources.foldl
    (fun acc s => if acc.contains s.key then acc else acc ++ [s.key])
    imported

/-- Result of one `persistItems` invocation: the session state, the
database, the returned error, and which external calls were issued with
which arguments (`none` = the call never happened). -/
structure PersistResult where
  state : ActiveImport
  db : Db
  err : Option Err
  issuedSources : Option (List TorrentSource)
  issuedTorrents : Option (List Torrent)
  issuedPublish : Option (List String)
deriving DecidableEq, Repr

/-- Tail of `persistItems` after the supporting-record step: the primary
record upsert, the downstream publish, and the committed-hashes append
on full success. -/
def persistTail (s : ActiveImport) (db : Db) (o : PersistOutcome)
    (torrents : List Torrent) (infoHashes : List String)
    (issued : Option (List TorrentSource)) : PersistResult :=
  match o.createTorrentsErr with
  | some e =>
    { state := s, db := db, err := some e
      issuedSources := issued, issuedTorrents := some torrents
      issuedPublish := none }
  | none =>
    let db2 := db.upsertTorrents torrents
    match o.publishErr with
    | some e =>
      { state := s, db := db2, err := some e
        issuedSources := issued, issuedTorrents := some torrents
        issuedPublish := some infoHashes }
    | none =>
      { state := { s with importedHashes := s.importedHashes ++ infoHashes }
        db := db2, err := none
        issuedSources := issued, issuedTorrents := some torrents
        issuedPublish := some infoHashes }

/-- `persistItems(items...)`: collect the newly-seen supporting records
and the primary records; issue the create-or-ignore insert when there is
at least one new supporting record, aborting on failure; on insert
success mark the issued keys durable; then upsert the primary records
and publish, appending the batch's hashes to `importedHashes` only when
every issued call succeeded. -/
def persistItems (s : ActiveImport) (db : Db) (o : PersistOutcome)
    (items : List Item) : PersistResult :=
  let sources := collectSources s.importedSources [] items
  let torrents := items.map (createTorrentModel s.info)
  let infoHashes := items.map (fun it => it.infoHash)
  if sources.length > 0 then
    match o.createSourcesErr with
    | some e =>
      { state := s, db := db, err := some e
        issuedSources := some sources, issuedTorrents := none
        issuedPublish := none }
    | none =>
      persistTail
        { s with importedSources := markDurable s.importedSources sources }
        (db.createOrIgnoreSources sources) o torrents infoHashes
        (some sources)
  else
    persistTail s db o torrents infoHashes none

/-- Result of a flush: the new session state and database, and the batch
handed to `persistItems` (`none` when no persist call happened). -/
structure FlushResult where
  state : ActiveImport
  db : Db
  persistCalled : Option (List Item)
deriving DecidableEq, Repr

/-- `flushLocked()`: no-op on an empty buffer; otherwise persist the
whole buffer as one batch, append a failure entry pairing the batch with
the error if persistence failed, and replace the buffer with a fresh
empty one in either case. -/
def flushLocked (s : ActiveImport) (db : Db) (o : PersistOutcome) :
    FlushResult :=
  if s.itemBuffer.length == 0 then
    { state := s, db := db, persistCalled := none }
  else
    let r := persistItems s db o s.itemBuffer
    let s1 :=
      match r.err with
      | some e =>
        { r.state with
          errors := r.state.errors
            ++ [({ items := s.itemBuffer, err := e } : ImportItemsError)] }
      | none => r.state
    { state := { s1 with itemBuffer := [] }
      db := r.db
      persistCalled := some s.itemBuffer }

/-- `buffer(item)` (the part under the mutex): append the item and flush
immediately when the buffer has reached the configured size. -/
def ActiveImport.buffer (s : ActiveImport) (db : Db) (o : PersistOutcome)
    (item : Item) : FlushResult :=
  let s1 := { s with itemBuffer := s.itemBuffer ++ [item] }
  if s.bufferSize ≤ s1.itemBuffer.length then
    flushLocked s1 db o
  else
    { state := s1, db := db, persistCalled := none }

/-- Result of `Import`: the session state, the items handed to the
pending-input channel, and the returned error. -/
structure ImportResult where
  state : ActiveImport
  sent : List Item
  err : Option Err
deriving DecidableEq, Repr

/-- `Import(items...)`: under the mutex, fail with `ErrImportClosed` when
the session is stopped; otherwise send each item to the input channel in
order. -/
def ActiveImport.Import (s : ActiveImport) (items : List Item) :
    ImportResult :=
  if s.stopped then
    { state := s, sent := [], err := some ErrImportClosed }
  else
    { state := s, sent := items, err := none }

/-- Result of `Close`: the session state, the database, the returned
error (`errors.OrNil()`), and the batch flushed by the embedded
`flushLocked` call (`none` when no persist call happened). -/
structure CloseResult where
  state : ActiveImport
  db : Db
  ret : Option ImportErrors
  flushedBatch : Option (List Item)
deriving DecidableEq, Repr

/-- `Close()`: under the mutex, always run `flushLocked`; then, only if
not already stopped, set the stopped flag (cancelling the scheduler
context and closing the input channel); return `errors.OrNil()`. -/
def ActiveImport.Close (s : ActiveImport) (db : Db) (o : PersistOutcome) :
    CloseResult :=
  let f := flushLocked s db o
  let s2 :=
    if f.state.stopped then f.state else { f.state with stopped := true }
  { state := s2, db := f.db
    ret := ImportErrors.orNil s2.errors
    flushedBatch := f.persistCalled }

/-- `Err()`: the accumulated error state, `nil` when empty. -/
def ActiveImport.errState (s : ActiveImport) : Option ImportErrors :=
  ImportErrors.orNil s.errors

/-- One entry of a session's persist trace: the durable-key set before
the batch, the keys included in the batch's supporting-record insert
(empty when no insert was issued), and whether the insert (had it been
issued) succeeded. -/
structure BatchIssue where
  preImported : List String
  issuedKeys : List String
  insertOk : Bool
deriving DecidableEq, Repr

/-- Runs `persistItems` over a sequence of batches (each with the
outcome of its external calls), recording for each batch the
supporting-record insert it issued. -/
def persistTrace (s : ActiveImport) (db : Db) :
    List (List Item × PersistOutcome) → List BatchIssue
  | [] => []
  | (items, o) :: rest =>
    let r := persistItems s db o items
    { preImported := s.importedSources
      issuedKeys :=
        (collectSources s.importedSources [] items).map (fun ts => ts.key)
      insertOk := o.createSourcesErr.isNone }
      :: persistTrace r.state r.db rest

/-- The scheduler loop of `run`: each iteration of the `for`/`select`
arms a fresh `time.After(maxWaitTime)` timer, so receiving an item
restarts the wait window at the arrival instant.  Given the loop-start
instant and the instants at which items are received, returns the
instant at which the first timeout-triggered flush fires. -/
def firstTimeoutAfter (maxWait : Nat) (start : Nat) : List Nat → Nat
  | [] => start + maxWait
  | a :: rest =>
    if a < start + maxWait then firstTimeoutAfter maxWait a rest
    else start + maxWait

/-- Modelled from the spec: "an implementation must use a fixed-period
ticker independent of record arrivals, or explicitly re-derive the
remaining wait time from the last flush timestamp, to guarantee a true
upper bound on flush latency" — under that requirement the first
time-based flush after a flush at `start` fires at `start + maxWait`,
independent of the arrivals. -/
def specFirstTimeout (maxWait : Nat) (start : Nat) (_arrivals : List Nat) :
    Nat :=
  start + maxWait

/-- A steady trickle: each arrival lands strictly before the deadline of
the timer armed at the previous event. -/
def trickle (maxWait : Nat) (start : Nat) : List Nat → Bool
  | [] => true
  | a :: rest => decide (a < start + maxWait) && trickle maxWait a rest

/-- A concrete record with a given source and info hash and no
enrichment payload. -/
def sampleItem (src hash : String) : Item :=
  { source := src, infoHash := hash, name := "torrent", size := 1
    privateFlag := false, contentType := none, contentSource := none
    contentID := none, title := none, releaseDate := "", releaseYear := 0
    episodes := "", videoResolution := none, videoSource := none
    videoCodec := none, video3d := none, videoModifier := none
    releaseGroup := none, publishedAt := 0 }

/-- A concrete record carrying an enrichment payload. -/
def sampleHintedItem : Item :=
  { sampleItem "src1" "hash1" with
    contentType := some "movie", contentSource := some "tmdb"
    contentID := some "42", title := some "A Movie", releaseYear := 1999
    videoResolution := some "V1080p", releaseGroup := some "GRP" }

/-- A fresh session as `importer.New` creates it (empty buffer, empty
durable-key set, no commits, no errors), with buffer size 10 and wait
time 5. -/
def sampleState : ActiveImport :=
  { bufferSize := 10, maxWaitTime := 5, stopped := false
    info := { id := "job1" }, itemBuffer := [], importedSources := []
    importedHashes := [], errors := [] }

/-- An empty database. -/
def emptyDb : Db :=
  { sourceKeys := [], torrents := [] }

/-- An outcome in which every external call succeeds. -/
def okOutcome : PersistOutcome :=
  { createSourcesErr := none, createTorrentsErr := none, publishErr := none }

theorem mem_markDurable (sources : List TorrentSource) (l : List String)
    (k : String) :
    k ∈ markDurable l sources ↔
      k ∈ l ∨ k ∈ sources.map (fun ts => ts.key) := by
  induction sources generalizing l with
  | nil => simp [markDurable]
  | cons s rest ih =>
    show k ∈ markDurable (if l.contains s.key then l else l ++ [s.key]) rest ↔ _
    rw [ih]
    by_cases hc : l.contains s.key = true
    · have hm : s.key ∈ l := by simpa using hc
      rw [if_pos hc]
      simp only [List.map_cons, List.mem_cons]
      constructor
      · rintro (h | h)
        · exact Or.inl h
        · exact Or.inr (Or.inr h)
      · rintro (h | h | h)
        · exact Or.inl h
        · exact Or.inl (h ▸ hm)
        · exact Or.inr h
    · rw [if_neg hc]
      simp only [List.mem_append, List.mem_singleton, List.map_cons,
        List.mem_cons]
      tauto

theorem markDurable_subset (sources : List TorrentSource) (l : List String)
    (k : String) (h : k ∈ l) : k ∈ markDurable l sources :=
  (mem_markDurable sources l k).mpr (Or.inl h)

theorem collectSources_cons (imported seen : List String) (item : Item)
    (rest : List Item) :
    collectSources imported seen (item :: rest) =
      if imported.contains item.source || seen.contains item.source
      then collectSources imported seen rest
      else { key := item.source, name := item.source }
        :: collectSources imported (item.source :: seen) rest :=
  rfl

theorem collectSources_keys (items : List Item) :
    ∀ (imported seen : List String),
      ((collectSources imported seen items).map fun ts => ts.key).Nodup ∧
      ∀ k ∈ (collectSources imported seen items).map fun ts => ts.key,
        k ∉ imported ∧ k ∉ seen := by
  induction items with
  | nil => intro imported seen; simp [collectSources]
  | cons item rest ih =>
    intro imported seen
    rw [collectSources_cons]
    by_cases hc :
        (imported.contains item.source || seen.contains item.source) = true
    · rw [if_pos hc]
      exact ih imported seen
    · rw [if_neg hc]
      have hni : item.source ∉ imported ∧ item.source ∉ seen := by
        simpa using hc
      obtain ⟨ihn, ihm⟩ := ih imported (item.source :: seen)
      refine ⟨?_, ?_⟩
      · simp only [List.map_cons, List.nodup_cons]
        refine ⟨fun hmem => ?_, ihn⟩
        have := (ihm _ hmem).2
        simp at this
      · intro k hk
        simp only [List.map_cons, List.mem_cons] at hk
        rcases hk with hk | hk
        · exact hk ▸ hni
        · have := ihm k hk
          refine ⟨this.1, fun hs => this.2 ?_⟩
          exact List.mem_cons_of_mem _ hs

theorem persistTail_frame (s : ActiveImport) (db : Db) (o : PersistOutcome)
    (torrents : List Torrent) (infoHashes : List String)
    (issued : Option (List TorrentSource)) :
    (persistTail s db o torrents infoHashes issued).state.importedSources
        = s.importedSources ∧
    (persistTail s db o torrents infoHashes issued).state.errors = s.errors ∧
    (persistTail s db o torrents infoHashes issued).state.stopped
        = s.stopped ∧
    (persistTail s db o torrents infoHashes issued).state.itemBuffer
        = s.itemBuffer ∧
    (persistTail s db o torrents infoHashes issued).state.bufferSize
        = s.bufferSize ∧
    (persistTail s db o torrents infoHashes issued).state.info = s.info := by
  unfold persistTail
  cases o.createTorrentsErr <;> cases o.publishErr <;> simp

theorem persistTail_hashes (s : ActiveImport) (db : Db) (o : PersistOutcome)
    (torrents : List Torrent) (infoHashes : List String)
    (issued : Option (List TorrentSource)) :
    (persistTail s db o torrents infoHashes issued).state.importedHashes =
      if (persistTail s db o torrents infoHashes issued).err = none
      then s.importedHashes ++ infoHashes
      else s.importedHashes := by
  unfold persistTail
  cases o.createTorrentsErr <;> cases o.publishErr <;> simp

theorem persistTail_err (s : ActiveImport) (db : Db) (o : PersistOutcome)
    (torrents : List Torrent) (infoHashes : List String)
    (issued : Option (List TorrentSource)) :
    (persistTail s db o torrents infoHashes issued).err = none ↔
      o.createTorrentsErr = none ∧ o.publishErr = none := by
  unfold persistTail
  cases o.createTorrentsErr <;> cases o.publishErr <;> simp

theorem persistTail_db (s : ActiveImport) (db : Db) (o : PersistOutcome)
    (torrents : List Torrent) (infoHashes : List String)
    (issued : Option (List TorrentSource)) :
    (persistTail s db o torrents infoHashes issued).db =
      if o.createTorrentsErr = none then db.upsertTorrents torrents
      else db := by
  unfold persistTail
  cases o.createTorrentsErr <;> cases o.publishErr <;> simp

theorem persistItems_sources_eq (s : ActiveImport) (db : Db)
    (o : PersistOutcome) (items : List Item) :
    (persistItems s db o items).state.importedSources =
      if 0 < (collectSources s.importedSources [] items).length ∧
          o.createSourcesErr = none
      then markDurable s.importedSources
        (collectSources s.importedSources [] items)
      else s.importedSources := by
  unfold persistItems
  by_cases h : 0 < (collectSources s.importedSources [] items).length
  · cases he : o.createSourcesErr with
    | some e => simp [h, he]
    | none => simp [h, he, (persistTail_frame _ _ _ _ _ _).1]
  · simp [h, (persistTail_frame _ _ _ _ _ _).1]

theorem persistItems_err_none_iff (s : ActiveImport) (db : Db)
    (o : PersistOutcome) (items : List Item) :
    (persistItems s db o items).err = none ↔
      (0 < (collectSources s.importedSources [] items).length →
          o.createSourcesErr = none) ∧
      o.createTorrentsErr = none ∧ o.publishErr = none := by
  unfold persistItems
  by_cases h : 0 < (collectSources s.importedSources [] items).length
  · cases he : o.createSourcesErr with
    | some e => simp [h, he]
    | none => simp [h, he, persistTail_err]
  · simp [h, persistTail_err]

theorem persistItems_hashes_eq (s : ActiveImport) (db : Db)
    (o : PersistOutcome) (items : List Item) :
    (persistItems s db o items).state.importedHashes =
      if (persistItems s db o items).err = none
      then s.importedHashes ++ items.map fun it => it.infoHash
      else s.importedHashes := by
  unfold persistItems
  by_cases h : 0 < (collectSources s.importedSources [] items).length
  · cases he : o.createSourcesErr with
    | some e => simp [h, he]
    | none => simp [h, he, persistTail_hashes]
  · simp [h, persistTail_hashes]

theorem persistItems_frame (s : ActiveImport) (db : Db) (o : PersistOutcome)
    (items : List Item) :
    (persistItems s db o items).state.errors = s.errors ∧
    (persistItems s db o items).state.stopped = s.stopped ∧
    (persistItems s db o items).state.itemBuffer = s.itemBuffer ∧
    (persistItems s db o items).state.bufferSize = s.bufferSize ∧
    (persistItems s db o items).state.info = s.info := by
  unfold persistItems
  by_cases h : 0 < (collectSources s.importedSources [] items).length
  · cases he : o.createSourcesErr with
    | some e => simp [h, he]
    | none => simp [h, he, persistTail_frame]
  · simp [h, persistTail_frame]

theorem persistItems_sources_mono (s : ActiveImport) (db : Db)
    (o : PersistOutcome) (items : List Item) (k : String)
    (h : k ∈ s.importedSources) :
    k ∈ (persistItems s db o items).state.importedSources := by
  rw [persistItems_sources_eq]
  split
  · exact markDurable_subset _ _ _ h
  · exact h

theorem persistItems_marks_issued (s : ActiveImport) (db : Db)
    (o : PersistOutcome) (items : List Item) (k : String)
    (he : o.createSourcesErr = none)
    (h : k ∈ (collectSources s.importedSources [] items).map
      fun ts => ts.key) :
    k ∈ (persistItems s db o items).state.importedSources := by
  rw [persistItems_sources_eq]
  have hlen : 0 < (collectSources s.importedSources [] items).length := by
    cases hcs : collectSources s.importedSources [] items with
    | nil => rw [hcs] at h; simp at h
    | cons a t => simp [hcs]
  rw [if_pos ⟨hlen, he⟩]
  exact (mem_markDurable _ _ _).mpr (Or.inr h)

theorem persistTrace_cons (s : ActiveImport) (db : Db) (items : List Item)
    (o : PersistOutcome) (rest : List (List Item × PersistOutcome)) :
    persistTrace s db ((items, o) :: rest) =
      { preImported := s.importedSources
        issuedKeys :=
          (collectSources s.importedSources [] items).map fun ts => ts.key
        insertOk := o.createSourcesErr.isNone }
        :: persistTrace (persistItems s db o items).state
          (persistItems s db o items).db rest :=
  rfl

theorem persistTrace_excludes_durable
    (tr : List (List Item × PersistOutcome)) :
    ∀ (s : ActiveImport) (db : Db) (k : String), k ∈ s.importedSources →
      ∀ e ∈ persistTrace s db tr, k ∉ e.issuedKeys := by
  induction tr with
  | nil => intro s db k _ e he; simp [persistTrace] at he
  | cons b rest ih =>
    intro s db k hk e he
    obtain ⟨items, o⟩ := b
    rw [persistTrace_cons] at he
    simp only [List.mem_cons] at he
    rcases he with he | he
    · subst he
      intro hmem
      exact ((collectSources_keys items s.importedSources []).2 k hmem).1 hk
    · exact ih _ _ k (persistItems_sources_mono s db o items k hk) e he

theorem flushLocked_empty (s : ActiveImport) (db : Db) (o : PersistOutcome)
    (h : s.itemBuffer = []) :
    flushLocked s db o = { state := s, db := db, persistCalled := none } := by
  unfold flushLocked
  simp [h]

theorem flushLocked_itemBuffer (s : ActiveImport) (db : Db)
    (o : PersistOutcome) :
    (flushLocked s db o).state.itemBuffer = [] := by
  unfold flushLocked
  by_cases h : s.itemBuffer = []
  · simp [h]
  · have hl : (s.itemBuffer.length == 0) = false := by
      simp [List.length_eq_zero, h]
    rw [if_neg (by simp [hl])]

theorem flushLocked_persistCalled (s : ActiveImport) (db : Db)
    (o : PersistOutcome) :
    (flushLocked s db o).persistCalled =
      if s.itemBuffer = [] then none else some s.itemBuffer := by
  unfold flushLocked
  by_cases h : s.itemBuffer = []
  · simp [h]
  · have hl : (s.itemBuffer.length == 0) = false := by
      simp [List.length_eq_zero, h]
    rw [if_neg (by simp [hl]), if_neg h]

/-- C3: an empty-buffer flush is a complete no-op (no persister call, no
error appended, nothing changed); a non-empty-buffer flush hands the
entire buffer to `persistItems` as one batch, resets the buffer to a
fresh empty one whether persistence succeeds or fails (never re-queuing
failed records), does not stop the session, and appends a failure entry
to the error list exactly when persistence failed. -/
theorem flushLocked_spec (s : ActiveImport) (db : Db) (o : PersistOutcome) :
    (s.itemBuffer = [] →
      flushLocked s db o = { state := s, db := db, persistCalled := none }) ∧
    (s.itemBuffer ≠ [] →
      (flushLocked s db o).persistCalled = some s.itemBuffer ∧
      (flushLocked s db o).state.itemBuffer = [] ∧
      (flushLocked s db o).state.stopped = s.stopped ∧
      (flushLocked s db o).db = (persistItems s db o s.itemBuffer).db ∧
      (flushLocked s db o).state.errors =
        s.errors ++
          (match (persistItems s db o s.itemBuffer).err with
           | some e =>
             [({ items := s.itemBuffer, err := e } : ImportItemsError)]
           | none => [])) := by
  constructor
  · intro h
    exact flushLocked_empty s db o h
  · intro h
    have hl : (s.itemBuffer.length == 0) = false := by
      simp [List.length_eq_zero, h]
    refine ⟨?_, flushLocked_itemBuffer s db o, ?_, ?_, ?_⟩
    · rw [flushLocked_persistCalled, if_neg h]
    · unfold flushLocked
      rw [if_neg (by simp [hl])]
      cases hp : (persistItems s db o s.itemBuffer).err <;>
        simp [hp, (persistItems_frame s db o s.itemBuffer).2.1]
    · unfold flushLocked
      rw [if_neg (by simp [hl])]
    · unfold flushLocked
      rw [if_neg (by simp [hl])]
      cases hp : (persistItems s db o s.itemBuffer).err <;>
        simp [hp, (persistItems_frame s db o s.itemBuffer).1]

/-- C3 witness: flushing a one-record buffer whose batch fails at the
publish step hands exactly that buffer to the persister. -/
theorem flushLocked_spec_witness :
    ({ sampleState with itemBuffer := [sampleItem "s1" "h1"] } :
        ActiveImport).itemBuffer ≠ [] ∧
    (flushLocked { sampleState with itemBuffer := [sampleItem "s1" "h1"] }
        emptyDb
        { createSourcesErr := none, createTorrentsErr := none,
          publishErr := some "boom" }).persistCalled =
      some [sampleItem "s1" "h1"] := by
  refine ⟨by decide, ?_⟩
  exact ((flushLocked_spec _ _ _).2 (by decide)).1

/-- C4: when the supporting-record insert and the primary-record upsert
succeed but the downstream publish fails, the persister returns exactly
the publish error, the database keeps both writes (nothing is undone),
the batch's fingerprints are not appended to the committed list, and the
flush records exactly one failure entry pairing that error with exactly
the records of the batch. -/
theorem publish_failure_isolation (s : ActiveImport) (db : Db)
    (o : PersistOutcome) (e : Err)
    (h1 : o.createSourcesErr = none) (h2 : o.createTorrentsErr = none)
    (h3 : o.publishErr = some e) (h4 : s.itemBuffer ≠ []) :
    (persistItems s db o s.itemBuffer).err = some e ∧
    (persistItems s db o s.itemBuffer).db =
      Db.upsertTorrents
        (if 0 < (collectSources s.importedSources [] s.itemBuffer).length
         then db.createOrIgnoreSources
           (collectSources s.importedSources [] s.itemBuffer)
         else db)
        (s.itemBuffer.map (createTorrentModel s.info)) ∧
    (persistItems s db o s.itemBuffer).state.importedHashes
        = s.importedHashes ∧
    (flushLocked s db o).state.errors =
      s.errors ++
        [({ items := s.itemBuffer, err := e } : ImportItemsError)] ∧
    (flushLocked s db o).state.importedHashes = s.importedHashes := by
  have herr : (persistItems s db o s.itemBuffer).err = some e := by
    unfold persistItems persistTail
    by_cases h : 0 < (collectSources s.importedSources [] s.itemBuffer).length
    · simp [h, h1, h2, h3]
    · simp [h, h2, h3]
  have hhash : (persistItems s db o s.itemBuffer).state.importedHashes
      = s.importedHashes := by
    rw [persistItems_hashes_eq, herr]
    simp
  have hdb : (persistItems s db o s.itemBuffer).db =
      Db.upsertTorrents
        (if 0 < (collectSources s.importedSources [] s.itemBuffer).length
         then db.createOrIgnoreSources
           (collectSources s.importedSources [] s.itemBuffer)
         else db)
        (s.itemBuffer.map (createTorrentModel s.info)) := by
    unfold persistItems
    by_cases h : 0 < (collectSources s.importedSources [] s.itemBuffer).length
    · simp [h, h1, persistTail_db, h2]
    · simp [h, persistTail_db, h2]
  have hl : (s.itemBuffer.length == 0) = false := by
    simp [List.length_eq_zero, h4]
  refine ⟨herr, hdb, hhash, ?_, ?_⟩
  · unfold flushLocked
    rw [if_neg (by simp [hl])]
    simp [herr, (persistItems_frame s db o s.itemBuffer).1]
  · unfold flushLocked
    rw [if_neg (by simp [hl])]
    simp [herr, hhash]

/-- C4 witness: a one-record batch failing only at publish leaves
exactly one failure entry pairing the batch with the error. -/
theorem publish_failure_isolation_witness :
    (flushLocked { sampleState with itemBuffer := [sampleItem "s1" "h1"] }
        emptyDb
        { createSourcesErr := none, createTorrentsErr := none,
          publishErr := some "publish failed" }).state.errors =
      [({ items := [sampleItem "s1" "h1"], err := "publish failed" } :
        ImportItemsError)] := by
  have h := publish_failure_isolation
    { sampleState with itemBuffer := [sampleItem "s1" "h1"] } emptyDb
    { createSourcesErr := none, createTorrentsErr := none,
      publishErr := some "publish failed" } "publish failed"
    rfl rfl rfl (by decide)
  simpa using h.2.2.2.1

/-- C5: after the session has been closed, `Import` returns the
closed-session error, sends nothing to the input channel, and leaves the
whole session state (buffer, durable-key set, committed list, error
list) unchanged. -/
theorem import_after_close (s : ActiveImport) (items : List Item)
    (h : s.stopped = true) :
    ActiveImport.Import s items =
      { state := s, sent := [], err := some ErrImportClosed } := by
  unfold ActiveImport.Import
  rw [if_pos h]

/-- C5 witness. -/
theorem import_after_close_witness :
    ActiveImport.Import { sampleState with stopped := true }
        [sampleItem "srcA" "hashA"] =
      { state := { sampleState with stopped := true }, sent := []
        err := some ErrImportClosed } :=
  import_after_close _ _ rfl

/-- C10: `Import` with zero records on an open session returns success,
sends nothing to the input channel, and leaves the whole session state
unchanged. -/
theorem import_empty_noop (s : ActiveImport) (h : s.stopped = false) :
    ActiveImport.Import s [] = { state := s, sent := [], err := none } := by
  unfold ActiveImport.Import
  rw [if_neg (by simp [h])]

/-- C10 witness. -/
theorem import_empty_noop_witness :
    ActiveImport.Import sampleState [] =
      { state := sampleState, sent := [], err := none } :=
  import_empty_noop sampleState rfl

theorem activeImport_set_stopped (x : ActiveImport) (h : x.stopped = true) :
    ({ x with stopped := true } : ActiveImport) = x := by
  cases x
  simp_all

theorem close_state_eq (s : ActiveImport) (db : Db) (o : PersistOutcome) :
    (ActiveImport.Close s db o).state =
      { (flushLocked s db o).state with stopped := true } := by
  unfold ActiveImport.Close
  by_cases hs : (flushLocked s db o).state.stopped = true
  · simp only [hs, if_true]
    exact (activeImport_set_stopped _ hs).symm
  · simp [hs]

theorem close_of_closed (s : ActiveImport) (db : Db) (o : PersistOutcome)
    (hs : s.stopped = true) (hb : s.itemBuffer = []) :
    ActiveImport.Close s db o =
      { state := s, db := db, ret := ImportErrors.orNil s.errors
        flushedBatch := none } := by
  unfold ActiveImport.Close
  rw [flushLocked_empty s db o hb]
  simp [hs]

/-- C6: the first `Close` performs the final flush (its resulting state
is the flushed state marked stopped, so any buffered records went to the
persister and the buffer is empty) and returns the accumulated error
state; a second `Close`, whatever outcome its (never-issued) persister
calls would have, returns the same accumulated error state, changes
nothing, and performs no further persist call (no double flush). -/
theorem close_idempotent (s : ActiveImport) (db : Db)
    (o o2 : PersistOutcome) :
    (ActiveImport.Close s db o).state.stopped = true ∧
    (ActiveImport.Close s db o).state.itemBuffer = [] ∧
    (ActiveImport.Close s db o).state =
      { (flushLocked s db o).state with stopped := true } ∧
    (ActiveImport.Close s db o).db = (flushLocked s db o).db ∧
    (ActiveImport.Close s db o).flushedBatch =
      (flushLocked s db o).persistCalled ∧
    (ActiveImport.Close s db o).ret =
      ImportErrors.orNil (ActiveImport.Close s db o).state.errors ∧
    ActiveImport.Close (ActiveImport.Close s db o).state
        (ActiveImport.Close s db o).db o2 =
      { state := (ActiveImport.Close s db o).state
        db := (ActiveImport.Close s db o).db
        ret := (ActiveImport.Close s db o).ret
        flushedBatch := none } := by
  have h1 : (ActiveImport.Close s db o).state.stopped = true := by
    rw [close_state_eq]
  have h2 : (ActiveImport.Close s db o).state.itemBuffer = [] := by
    rw [close_state_eq]
    simpa using flushLocked_itemBuffer s db o
  refine ⟨h1, h2, close_state_eq s db o, rfl, rfl, rfl, ?_⟩
  rw [close_of_closed _ _ o2 h1 h2]
  rfl

/-- C7: buffering a record that brings the buffer to exactly the
configured size threshold triggers an immediate flush of exactly the
buffered records; buffering a record while still below the threshold
triggers no flush and only appends the record to the buffer. -/
theorem buffer_threshold_flush (s : ActiveImport) (db : Db)
    (o : PersistOutcome) (item : Item) :
    (s.itemBuffer.length + 1 = s.bufferSize →
      (ActiveImport.buffer s db o item).persistCalled =
        some (s.itemBuffer ++ [item]) ∧
      (ActiveImport.buffer s db o item).state.itemBuffer = []) ∧
    (s.itemBuffer.length + 1 < s.bufferSize →
      ActiveImport.buffer s db o item =
        { state := { s with itemBuffer := s.itemBuffer ++ [item] }
          db := db, persistCalled := none }) := by
  constructor
  · intro h
    unfold ActiveImport.buffer
    have hc : s.bufferSize ≤
        (({ s with itemBuffer := s.itemBuffer ++ [item] } :
          ActiveImport).itemBuffer).length := by
      simp [← h]
    rw [if_pos hc]
    constructor
    · rw [flushLocked_persistCalled]
      simp
    · exact flushLocked_itemBuffer _ _ _
  · intro h
    unfold ActiveImport.buffer
    have hc : ¬ s.bufferSize ≤
        (({ s with itemBuffer := s.itemBuffer ++ [item] } :
          ActiveImport).itemBuffer).length := by
      simp only [List.length_append, List.length_singleton]
      omega
    rw [if_neg hc]

/-- A session with threshold 2 holding one buffered record. -/
def nearFullState : ActiveImport :=
  { sampleState with
    bufferSize := 2, itemBuffer := [sampleItem "s1" "h1"] }

/-- C7 witness: with threshold 2 and one buffered record, buffering a
second record flushes exactly those two records. -/
theorem buffer_threshold_flush_witness :
    nearFullState.itemBuffer.length + 1 = nearFullState.bufferSize ∧
    (ActiveImport.buffer nearFullState emptyDb okOutcome
        (sampleItem "s2" "h2")).persistCalled =
      some [sampleItem "s1" "h1", sampleItem "s2" "h2"] :=
  ⟨rfl,
    ((buffer_threshold_flush nearFullState emptyDb okOutcome
      (sampleItem "s2" "h2")).1 rfl).1⟩

/-- C8: the primary record built from an input record carries the
record's identity fields (info hash, name, size, privacy flag), the
initial no-file-info status, one provenance entry with the session's id
and the record's publication timestamp, and the denormalized
hint substructure mirroring the enrichment fields exactly when the
record's content type is present. -/
theorem createTorrentModel_spec (info : Info) (item : Item) :
    (createTorrentModel info item).infoHash = item.infoHash ∧
    (createTorrentModel info item).name = item.name ∧
    (createTorrentModel info item).size = item.size ∧
    (createTorrentModel info item).privateFlag = item.privateFlag ∧
    (createTorrentModel info item).filesStatus = FilesStatus.noInfo ∧
    (createTorrentModel info item).sources =
      [{ source := item.source, importId := some info.id
         publishedAt := item.publishedAt }] ∧
    ((createTorrentModel info item).hint = none ↔
      item.contentType = none) ∧
    (∀ ct, item.contentType = some ct →
      (createTorrentModel info item).hint = some
        { contentType := ct, contentSource := item.contentSource
          contentID := item.contentID, title := item.title
          releaseYear := item.releaseYear, episodes := item.episodes
          videoResolution := item.videoResolution
          videoSource := item.videoSource, videoCodec := item.videoCodec
          video3d := item.video3d, videoModifier := item.videoModifier
          releaseGroup := item.releaseGroup }) := by
  unfold createTorrentModel
  cases hct : item.contentType <;> simp [hct]

/-- C8 witness: instantiated on a record carrying an enrichment
payload. -/
theorem createTorrentModel_spec_witness :
    (createTorrentModel { id := "job1" } sampleHintedItem).hint = some
      { contentType := "movie", contentSource := some "tmdb"
        contentID := some "42", title := some "A Movie"
        releaseYear := 1999, episodes := ""
        videoResolution := some "V1080p", videoSource := none
        videoCodec := none, video3d := none, videoModifier := none
        releaseGroup := some "GRP" } :=
  (createTorrentModel_spec { id := "job1" } sampleHintedItem).2.2.2.2.2.2.2
    "movie" rfl

/-- A batch outcome in which the supporting-record insert succeeds and
the primary-record upsert fails. -/
def upsertFailOutcome : PersistOutcome :=
  { createSourcesErr := none, createTorrentsErr := some "upsert failed"
    publishErr := none }

/-- C1 counterexample: on a batch whose supporting-record insert
succeeds and whose primary-record upsert then fails, `persistItems`
returns the failure, yet the durable-key set HAS been updated with the
batch's new source key — refuting "on failure of any step neither the
durable-key set nor the committed list is updated" (the committed list
is indeed untouched). -/
theorem persistItems_durable_despite_failure :
    (persistItems sampleState emptyDb upsertFailOutcome
      [sampleItem "src1" "hash1"]).err = some "upsert failed" ∧
    (persistItems sampleState emptyDb upsertFailOutcome
      [sampleItem "src1" "hash1"]).state.importedSources = ["src1"] ∧
    sampleState.importedSources = [] ∧
    (persistItems sampleState emptyDb upsertFailOutcome
      [sampleItem "src1" "hash1"]).state.importedSources ≠
      sampleState.importedSources ∧
    (persistItems sampleState emptyDb upsertFailOutcome
      [sampleItem "src1" "hash1"]).state.importedHashes =
      sampleState.importedHashes := by
  refine ⟨rfl, rfl, rfl, ?_, rfl⟩
  decide

/-- C1 (amended): the newly-seen source keys are marked durable as soon
as the create-or-ignore insert is issued and succeeds, even when a later
step of the batch fails; the batch's fingerprints are appended to the
committed list exactly when every issued step (insert, upsert, publish)
succeeded; on failure neither list changes beyond that. -/
theorem persistItems_bookkeeping (s : ActiveImport) (db : Db)
    (o : PersistOutcome) (items : List Item) :
    ((persistItems s db o items).state.importedSources =
      if 0 < (collectSources s.importedSources [] items).length ∧
          o.createSourcesErr = none
      then markDurable s.importedSources
        (collectSources s.importedSources [] items)
      else s.importedSources) ∧
    ((persistItems s db o items).state.importedHashes =
      if (persistItems s db o items).err = none
      then s.importedHashes ++ items.map fun it => it.infoHash
      else s.importedHashes) ∧
    ((persistItems s db o items).err = none ↔
      (0 < (collectSources s.importedSources [] items).length →
          o.createSourcesErr = none) ∧
      o.createTorrentsErr = none ∧ o.publishErr = none) :=
  ⟨persistItems_sources_eq s db o items, persistItems_hashes_eq s db o items,
    persistItems_err_none_iff s db o items⟩

/-- C1 witness: a fully successful one-record batch commits its
fingerprint. -/
theorem persistItems_bookkeeping_witness :
    (persistItems sampleState emptyDb okOutcome
      [sampleItem "s1" "h1"]).err = none :=
  ((persistItems_bookkeeping sampleState emptyDb okOutcome
    [sampleItem "s1" "h1"]).2.2).mpr ⟨fun _ => rfl, rfl, rfl⟩

/-- C2: along any sequence of batches persisted in one session, every
issued supporting-record insert contains no duplicate keys, contains no
key already recorded as durable at the time of issue, and once an
issued insert containing a key succeeds, no later batch's insert
contains that key again. -/
theorem sources_inserted_at_most_once (s0 : ActiveImport) (db0 : Db)
    (tr : List (List Item × PersistOutcome)) :
    (∀ e ∈ persistTrace s0 db0 tr, e.issuedKeys.Nodup) ∧
    (∀ e ∈ persistTrace s0 db0 tr, ∀ k ∈ e.issuedKeys,
      k ∉ e.preImported) ∧
    (persistTrace s0 db0 tr).Pairwise
      (fun e1 e2 => e1.insertOk = true →
        ∀ k ∈ e1.issuedKeys, k ∉ e2.issuedKeys) := by
  induction tr generalizing s0 db0 with
  | nil => simp [persistTrace]
  | cons b rest ih =>
    obtain ⟨items, o⟩ := b
    rw [persistTrace_cons]
    obtain ⟨ih1, ih2, ih3⟩ :=
      ih (persistItems s0 db0 o items).state (persistItems s0 db0 o items).db
    refine ⟨?_, ?_, List.pairwise_cons.mpr ⟨?_, ih3⟩⟩
    · intro e he
      rcases List.mem_cons.mp he with he | he
      · subst he
        exact (collectSources_keys items s0.importedSources []).1
      · exact ih1 e he
    · intro e he k hk
      rcases List.mem_cons.mp he with he | he
      · subst he
        exact ((collectSources_keys items s0.importedSources []).2 k hk).1
      · exact ih2 e he k hk
    · intro e' he' hok k hk
      have hnone : o.createSourcesErr = none := by
        simpa [Option.isNone_iff_eq_none] using hok
      exact persistTrace_excludes_durable rest _ _ k
        (persistItems_marks_issued s0 db0 o items k hnone hk) e' he'

/-- Two successive one-record batches sharing the source key, both fully
successful. -/
def twoBatchTrace : List (List Item × PersistOutcome) :=
  [([sampleItem "src1" "hash1"], okOutcome),
   ([sampleItem "src1" "hash2"], okOutcome)]

/-- C2 witness: after the first successful insert of "src1", the second
batch's insert does not contain it. -/
theorem sources_inserted_at_most_once_witness :
    "src1" ∉ ((persistTrace sampleState emptyDb twoBatchTrace).get
      ⟨1, by decide⟩).issuedKeys := by
  have h := (sources_inserted_at_most_once sampleState emptyDb
    twoBatchTrace).2.2
  unfold twoBatchTrace at h
  rw [persistTrace_cons, persistTrace_cons] at h
  obtain ⟨h0, -⟩ := List.pairwise_cons.mp h
  exact h0 _ (List.mem_cons_self _ _) rfl "src1" (by decide)

/-- C9 counterexample: with `maxWaitTime = 10`, a trickle of arrivals at
instants 9, 18, 27, 36 (each within the current wait window) postpones
the code's first time-based flush to instant 46, whereas a timeout
measured from the last flush (instant 0) would fire at instant 10: the
wait window IS reset by every record arrival. -/
theorem scheduler_timer_reset_counterexample :
    firstTimeoutAfter 10 0 [9, 18, 27, 36] = 46 ∧
    specFirstTimeout 10 0 [9, 18, 27, 36] = 10 ∧
    firstTimeoutAfter 10 0 [9, 18, 27, 36] ≠
      specFirstTimeout 10 0 [9, 18, 27, 36] := by
  decide

/-- C9 (amended): the scheduler arms a fresh `time.After` timer on every
loop iteration, so each record arrival resets the wait window; under any
steady trickle of arrivals each landing inside the current window, the
first time-based flush fires only `maxWaitTime` after the LAST arrival —
flush latency grows with the arrival sequence and has no
arrival-independent upper bound. -/
theorem firstTimeoutAfter_trickle (maxWait start : Nat)
    (arrivals : List Nat) (h : trickle maxWait start arrivals = true) :
    firstTimeoutAfter maxWait start arrivals =
      (arrivals.getLast?).getD start + maxWait := by
  induction arrivals generalizing start with
  | nil => rfl
  | cons a rest ih =>
    have h' : a < start + maxWait ∧ trickle maxWait a rest = true := by
      simpa [trickle] using h
    show (if a < start + maxWait then firstTimeoutAfter maxWait a rest
      else start + maxWait) = _
    rw [if_pos h'.1, ih a h'.2]
    cases rest with
    | nil => rfl
    | cons b t =>
      rw [List.getLast?_cons_cons]
      cases hgl : (b :: t).getLast? with
      | none => simp [List.getLast?_eq_none_iff] at hgl
      | some x => rfl

/-- C9 witness: the amended statement evaluated on the trickle
9, 18, 27, 36 with wait time 10. -/
theorem firstTimeoutAfter_trickle_witness :
    trickle 10 0 [9, 18, 27, 36] = true ∧
    firstTimeoutAfter 10 0 [9, 18, 27, 36] = 46 :=
  ⟨by decide, firstTimeoutAfter_trickle 10 0 [9, 18, 27, 36] (by decide)⟩
